import Mathlib

/-!
Shallow embedding of the pose-estimation and pipeline-concurrency core of the
Vision repository, together with theorems settling the frozen claims about it.

Embedded source files (translated definition by definition):
  * `src/pipeline/CoordinateSystems.py`  — `opencv_pose_to_wpilib`, `wpilib_translation_to_opencv`
  * `src/pipeline/PoseEstimator.py`      — `SquareTargetPoseEstimator.solve_fiducial_pose`
  * `src/pipeline/CameraPoseEstimator.py`— `MultiTargetCameraPoseEstimator.solve_camera_pose`
  * `src/pipeline/TagAngleCalculator.py` — `CameraMatrixTagAngleCalculator.calculate_tag_angles`
  * `src/pipeline/FiducialDetector.py`   — `ArucoFiducialDetector.detect_fiducials`
  * `src/AprilTagWorker.py`              — one iteration of the `apriltag_worker` loop
  * `src/__init__.py`                    — the two single-slot `queue.Queue(maxsize=1)` channels

Modelling conventions:
  * Machine floats are modelled by `ℚ`.  Every arithmetic operation the
    embedded code performs (negation, permutation, halving, comparison,
    3×3 matrix inversion) is exact on the inputs used here, so no rounding
    behaviour is lost for the properties at stake.
  * External libraries (OpenCV solvers, `cv.undistortPoints`,
    `cv.aruco.detectMarkers`, wpimath pose composition, `math.atan`,
    `Translation3d.norm`) are not code of this repository; they enter the
    embedding as explicit function parameters collected in `ExtOps`.  A
    fallible call that the Python wraps in `try/except` is modelled as an
    `Option`-returning parameter (`none` = the call raised).
  * Python exceptions that the repository does **not** catch are modelled by
    `Except PyErr`: a function that can let an exception escape returns
    `Except PyErr α`, and `.error e` means the exception propagates to the
    caller.
  * A CPython integer object is modelled by `PyInt`, which records both the
    numeric value and whether the object is a plain Python `int` or a NumPy
    integer, because `src/AprilTagWorker.py` compares tag ids with `is not`
    (object identity), whose outcome depends on that distinction.
-/

namespace Vision

/-- Image-plane point `(x, y)` (a row of an OpenCV corner array). -/
abbrev Vec2 : Type := ℚ × ℚ

/-- 3-component vector `(v0, v1, v2)`: an OpenCV `tvec`/`rvec` (whose entries
the source reads as `v[i][0]`) or a 3D object point. -/
abbrev Vec3 : Type := ℚ × ℚ × ℚ

/-- wpimath `Translation3d` with accessors `X()`, `Y()`, `Z()`. -/
structure Translation3d where
  x : ℚ
  y : ℚ
  z : ℚ
deriving DecidableEq, Repr

/-- wpimath `Rotation3d`, kept symbolic: the repository only ever constructs
one from a quaternion (`Rotation3d(Quaternion(w, x, y, z))` in
`solve_camera_pose`) or from an axis vector plus the angle equal to that
vector's magnitude (`opencv_pose_to_wpilib`, where the angle argument
`sqrt(rx²+ry²+rz²)` is determined by the stored vector, so storing the
vector loses nothing). -/
inductive Rotation3d where
  | fromQuat (w x y z : ℚ)
  | fromAxisVec (x y z : ℚ)
deriving DecidableEq, Repr

/-- wpimath `Pose3d`: a translation plus a rotation. -/
structure Pose3d where
  translation : Translation3d
  rotation : Rotation3d
deriving DecidableEq, Repr

/-- A CPython integer object: the numeric value together with its runtime
representation.  `py v` is a plain Python `int`; `np v` is a NumPy integer
(`numpy.int32`), which is what `ArucoFiducialDetector.detect_fiducials`
stores as `tag_id` (it takes `id[0]` from the `ids` array returned by
`cv.aruco.detectMarkers`). -/
inductive PyInt where
  | py (v : ℤ)
  | np (v : ℤ)
deriving DecidableEq, Repr

/-- The numeric value of a Python integer object (what `==` compares). -/
def PyInt.val : PyInt → ℤ
  | .py v => v
  | .np v => v

/-- `src/pipeline/CoordinateSystems.py`, `opencv_pose_to_wpilib(tvec, rvec)`:
`Pose3d(Translation3d(tvec[2][0], -tvec[0][0], -tvec[1][0]),
Rotation3d(np.array([rvec[2][0], -rvec[0][0], -rvec[1][0]]), sqrt(rx²+ry²+rz²)))`.
The rotation stores the permuted axis vector; its angle is the vector's
magnitude (see `Rotation3d.fromAxisVec`). -/
def opencv_pose_to_wpilib (tvec rvec : Vec3) : Pose3d :=
  { translation := ⟨tvec.2.2, -tvec.1, -tvec.2.1⟩
    rotation := .fromAxisVec rvec.2.2 (-rvec.1) (-rvec.2.1) }

/-- `src/pipeline/CoordinateSystems.py`, `wpilib_translation_to_opencv`:
returns the 3-element list `[-translation.Y(), -translation.Z(),
translation.X()]`, modelled as a `Vec3`. -/
def wpilib_translation_to_opencv (translation : Translation3d) : Vec3 :=
  (-translation.y, -translation.z, translation.x)

/-- A 3×3 matrix (the camera intrinsic matrix from `LocalConfig.camera_matrix`). -/
structure Mat3 where
  m00 : ℚ
  m01 : ℚ
  m02 : ℚ
  m10 : ℚ
  m11 : ℚ
  m12 : ℚ
  m20 : ℚ
  m21 : ℚ
  m22 : ℚ
deriving DecidableEq, Repr

/-- Determinant of a 3×3 matrix (cofactor expansion along the first row). -/
def Mat3.det (A : Mat3) : ℚ :=
  A.m00 * (A.m11 * A.m22 - A.m12 * A.m21)
    - A.m01 * (A.m10 * A.m22 - A.m12 * A.m20)
    + A.m02 * (A.m10 * A.m21 - A.m11 * A.m20)

/-- Inverse of a 3×3 matrix by the adjugate formula (meaningful only when
`det ≠ 0`; `npLinalgInv` guards the call exactly as `np.linalg.inv` does). -/
def Mat3.inv (A : Mat3) : Mat3 :=
  let d := A.det
  { m00 := (A.m11 * A.m22 - A.m12 * A.m21) / d
    m01 := (A.m02 * A.m21 - A.m01 * A.m22) / d
    m02 := (A.m01 * A.m12 - A.m02 * A.m11) / d
    m10 := (A.m12 * A.m20 - A.m10 * A.m22) / d
    m11 := (A.m00 * A.m22 - A.m02 * A.m20) / d
    m12 := (A.m02 * A.m10 - A.m00 * A.m12) / d
    m20 := (A.m10 * A.m21 - A.m11 * A.m20) / d
    m21 := (A.m01 * A.m20 - A.m00 * A.m21) / d
    m22 := (A.m00 * A.m11 - A.m01 * A.m10) / d }

/-- Matrix–vector product `A · v`. -/
def Mat3.mulVec (A : Mat3) (v : Vec3) : Vec3 :=
  (A.m00 * v.1 + A.m01 * v.2.1 + A.m02 * v.2.2,
   A.m10 * v.1 + A.m11 * v.2.1 + A.m12 * v.2.2,
   A.m20 * v.1 + A.m21 * v.2.1 + A.m22 * v.2.2)

/-- A Python exception that the repository's code lets escape. -/
inductive PyErr where
  | linAlgError
  | indexError
  | cvError
deriving DecidableEq, Repr

/-- `np.linalg.inv`: raises `LinAlgError` on a singular matrix, otherwise
returns the inverse. -/
def npLinalgInv (A : Mat3) : Except PyErr Mat3 :=
  if A.det = 0 then .error .linAlgError else .ok A.inv

/-- `src/config/Config.py`, `LocalConfig` (the fields the embedded core
reads: the camera intrinsics and distortion coefficients). -/
structure LocalConfig where
  camera_matrix : Mat3
  distortion_coefficients : List ℚ
deriving DecidableEq, Repr

/-- One entry of `tag_layout["tags"]` as read by `solve_camera_pose`:
`tag_data["ID"]`, `tag_data["pose"]["translation"]{x,y,z}` and
`tag_data["pose"]["rotation"]["quaternion"]{W,X,Y,Z}`, flattened. -/
structure TagLayoutEntry where
  ID : ℤ
  tx : ℚ
  ty : ℚ
  tz : ℚ
  qw : ℚ
  qx : ℚ
  qy : ℚ
  qz : ℚ
deriving DecidableEq, Repr

/-- The tag layout: JSON object with a `"tags"` list. -/
structure TagLayout where
  tags : List TagLayoutEntry
deriving DecidableEq, Repr

/-- `src/config/Config.py`, `RemoteConfig` (the fields the embedded core
reads); `tag_layout` defaults to `None`, hence the `Option`. -/
structure RemoteConfig where
  fiducial_size_m : ℚ
  tag_layout : Option TagLayout
deriving DecidableEq, Repr

/-- `src/config/Config.py`, `ConfigStore`. -/
structure ConfigStore where
  local_config : LocalConfig
  remote_config : RemoteConfig
deriving DecidableEq, Repr

/-- `src/config/VisionTypes.py`, `FiducialFrameObservation`: a tag id and the
detector's corner array.  The source stores a 1×4×2 array and reads
`corners[0][i]` (camera estimator) or passes the whole array (pose
estimator / angle calculator); `corners i` here is `corners[0][i]`. -/
structure FiducialFrameObservation where
  tag_id : PyInt
  corners : Fin 4 → Vec2

/-- `src/config/VisionTypes.py`, `FiducialPoseObservation`: all five fields
are non-optional in the source dataclass, so a constructed value always
carries both poses and both errors. -/
structure FiducialPoseObservation where
  tag_id : PyInt
  pose_0 : Pose3d
  error_0 : ℚ
  pose_1 : Pose3d
  error_1 : ℚ

/-- `src/config/VisionTypes.py`, `CameraPoseObservation`: the second
solution slot (`pose_1`, `error_1`) is optional in the source dataclass. -/
structure CameraPoseObservation where
  tag_ids : List PyInt
  pose_0 : Pose3d
  error_0 : ℚ
  pose_1 : Option Pose3d
  error_1 : Option ℚ

/-- `src/config/VisionTypes.py`, `TagAngleObservation`: the angle pairs for
the four corners and the scalar distance. -/
structure TagAngleObservation where
  tag_id : PyInt
  corners : List Vec2
  distance : ℚ

/-- One solution returned by `cv.solvePnPGeneric`: the triple
`(rvecs[i], tvecs[i], errors[i][0])`. -/
structure PnpSol where
  rvec : Vec3
  tvec : Vec3
  err : ℚ
deriving DecidableEq, Repr

/-- The external collaborators of the embedded core (OpenCV, NumPy's
transcendental functions, wpimath geometry, the marker detector), passed as
explicit parameters.  Fields returning `Option` model calls that the Python
wraps in `try/except` (`none` = the call raised); `undistortPoints` returns
`Except` because its exceptions are **not** caught anywhere. -/
structure ExtOps where
  /-- wpimath: `(pose + Transform3d(Translation3d(0, dy, dz), Rotation3d())).translation()`. -/
  poseCornerTranslation : Pose3d → ℚ → ℚ → Translation3d
  /-- wpimath: `Pose3d` of `field_to_tag_pose.transformBy(Transform3d(p.translation(), p.rotation()).inverse())`. -/
  composeFieldToCamera : Pose3d → Pose3d → Pose3d
  /-- wpimath: `Pose3d` of `Transform3d(p.translation(), p.rotation()).inverse()`. -/
  invertToPose : Pose3d → Pose3d
  /-- `cv.solvePnPGeneric(object_points, frame_points, camera_matrix,
  distortion_coefficients, flags=cv.SOLVEPNP_IPPE_SQUARE)`. -/
  solveSquare : List Vec3 → List Vec2 → Mat3 → List ℚ → Option (List PnpSol)
  /-- `cv.solvePnPGeneric(..., flags=cv.SOLVEPNP_SQPNP)`. -/
  solveSqpnp : List Vec3 → List Vec2 → Mat3 → List ℚ → Option (List PnpSol)
  /-- `cv.undistortPoints(corners, camera_matrix, distortion_coefficients,
  None, camera_matrix)`; may raise, and the caller does not catch. -/
  undistortPoints : (Fin 4 → Vec2) → Mat3 → List ℚ → Except PyErr (Fin 4 → Vec2)
  /-- `math.atan`. -/
  atan : ℚ → ℚ
  /-- wpimath: `Translation3d.norm()`. -/
  norm3 : Translation3d → ℚ
  /-- `cv.aruco.detectMarkers(frame, dict, parameters)` restricted to the
  data `detect_fiducials` uses: the list `zip(ids, corners)`, each id being
  the NumPy integer `id[0]`. -/
  detectMarkers : ℕ → List (ℤ × (Fin 4 → Vec2))

/-- The local 3D corner template of a square tag of side `fid_size`:
`[[-s/2, s/2, 0], [s/2, s/2, 0], [s/2, -s/2, 0], [-s/2, -s/2, 0]]`, the
`object_points` array built identically in
`SquareTargetPoseEstimator.solve_fiducial_pose` (lines 50–57) and in the
single-tag branch of `solve_camera_pose` (lines 113–120). -/
def square_object_points (fid_size : ℚ) : List Vec3 :=
  [(-fid_size / 2, fid_size / 2, 0),
   (fid_size / 2, fid_size / 2, 0),
   (fid_size / 2, -fid_size / 2, 0),
   (-fid_size / 2, -fid_size / 2, 0)]

/-- The corner array of an observation as the point list OpenCV receives. -/
def cornersList (observation : FiducialFrameObservation) : List Vec2 :=
  [observation.corners 0, observation.corners 1, observation.corners 2, observation.corners 3]

/-- `src/pipeline/PoseEstimator.py`,
`SquareTargetPoseEstimator.solve_fiducial_pose`: build the square template,
call `cv.solvePnPGeneric` inside `try/except` (a raised error returns
`None`), then build the `FiducialPoseObservation` from solutions 0 and 1
inside a second `try/except` (an `IndexError` from `rvecs[1]`/`tvecs[1]`/
`errors[1]` when fewer than two solutions exist returns `None`). -/
def solve_fiducial_pose (E : ExtOps) (frame_observation : FiducialFrameObservation)
    (config_store : ConfigStore) : Option FiducialPoseObservation :=
  let fid_size := config_store.remote_config.fiducial_size_m
  match E.solveSquare (square_object_points fid_size) (cornersList frame_observation)
      config_store.local_config.camera_matrix
      config_store.local_config.distortion_coefficients with
  | none => none
  | some sols =>
    match sols[0]?, sols[1]? with
    | some s0, some s1 =>
        some { tag_id := frame_observation.tag_id
               pose_0 := opencv_pose_to_wpilib s0.tvec s0.rvec
               error_0 := s0.err
               pose_1 := opencv_pose_to_wpilib s1.tvec s1.rvec
               error_1 := s1.err }
    | _, _ => none

/-- C4 — For every single-marker frame observation and configuration,
`solve_fiducial_pose` returns either no result (`None`), or a result built
from two solver solutions with both poses and both reprojection errors
populated — exactly zero or two solutions, never one or a partially
populated result (the `FiducialPoseObservation` record has no optional
fields, so any returned value carries all four). -/
theorem solve_fiducial_pose_zero_or_two (E : ExtOps)
    (frame_observation : FiducialFrameObservation) (config_store : ConfigStore) :
    solve_fiducial_pose E frame_observation config_store = none ∨
    ∃ sols s0 s1,
      E.solveSquare (square_object_points config_store.remote_config.fiducial_size_m)
        (cornersList frame_observation)
        config_store.local_config.camera_matrix
        config_store.local_config.distortion_coefficients = some sols ∧
      sols[0]? = some s0 ∧ sols[1]? = some s1 ∧
      solve_fiducial_pose E frame_observation config_store =
        some { tag_id := frame_observation.tag_id
               pose_0 := opencv_pose_to_wpilib s0.tvec s0.rvec
               error_0 := s0.err
               pose_1 := opencv_pose_to_wpilib s1.tvec s1.rvec
               error_1 := s1.err } := by
  cases h : E.solveSquare (square_object_points config_store.remote_config.fiducial_size_m)
      (cornersList frame_observation)
      config_store.local_config.camera_matrix
      config_store.local_config.distortion_coefficients with
  | none => exact Or.inl (by simp [solve_fiducial_pose, h])
  | some sols =>
    cases h0 : sols[0]? with
    | none => exact Or.inl (by simp [solve_fiducial_pose, h, h0])
    | some s0 =>
      cases h1 : sols[1]? with
      | none => exact Or.inl (by simp [solve_fiducial_pose, h, h0, h1])
      | some s1 =>
        exact Or.inr ⟨sols, s0, s1, rfl, h0, h1, by simp [solve_fiducial_pose, h, h0, h1]⟩

/-- Accumulator of the correspondence-building loop in
`MultiTargetCameraPoseEstimator.solve_camera_pose`: the four lists
initialised before the loop (lines 59–62). -/
structure SolveState where
  object_points : List Vec3 := []
  frame_points : List Vec2 := []
  tag_ids : List PyInt := []
  tag_poses : List Pose3d := []

/-- The `Pose3d(Translation3d(x, y, z), Rotation3d(Quaternion(W, X, Y, Z)))`
built from a layout entry in `solve_camera_pose` (lines 68–82). -/
def entryPose (tag_data : TagLayoutEntry) : Pose3d :=
  { translation := ⟨tag_data.tx, tag_data.ty, tag_data.tz⟩
    rotation := .fromQuat tag_data.qw tag_data.qx tag_data.qy tag_data.qz }

/-- One iteration of the inner `for tag_data in ...tag_layout["tags"]` loop
of `solve_camera_pose` for a fixed `observation` (lines 65–109).  Per the
source's indentation, the `if tag_pose != None:` block sits **inside** this
loop, so once `tag_pose` has been set the appends repeat on every remaining
layout entry.  The second component of the accumulator is the loop-local
`tag_pose` variable (initialised to `None` at line 64). -/
def layoutStep (E : ExtOps) (fid_size : ℚ) (observation : FiducialFrameObservation)
    (acc : SolveState × Option Pose3d) (tag_data : TagLayoutEntry) :
    SolveState × Option Pose3d :=
  let tag_pose := if tag_data.ID = observation.tag_id.val then some (entryPose tag_data) else acc.2
  match tag_pose with
  | none => (acc.1, none)
  | some tp =>
    let corner_0 := E.poseCornerTranslation tp (fid_size / 2) (-fid_size / 2)
    let corner_1 := E.poseCornerTranslation tp (-fid_size / 2) (-fid_size / 2)
    let corner_2 := E.poseCornerTranslation tp (-fid_size / 2) (fid_size / 2)
    let corner_3 := E.poseCornerTranslation tp (fid_size / 2) (fid_size / 2)
    ({ object_points := acc.1.object_points ++
         [wpilib_translation_to_opencv corner_0, wpilib_translation_to_opencv corner_1,
          wpilib_translation_to_opencv corner_2, wpilib_translation_to_opencv corner_3]
       frame_points := acc.1.frame_points ++ cornersList observation
       tag_ids := acc.1.tag_ids ++ [observation.tag_id]
       tag_poses := acc.1.tag_poses ++ [tp] }, some tp)

/-- The `len(tag_ids) == 1` branch of `solve_camera_pose` (lines 111–144):
rebuild the canonical square template (discarding the pooled
`object_points`), call the IPPE_SQUARE solver inside `try/except` (a raised
error returns `None`), then read `tag_poses[0]`, `tvecs[0]`, `rvecs[0]`,
`tvecs[1]`, `rvecs[1]`, `errors[0]`, `errors[1]` outside any `try`, so a
missing entry propagates an `IndexError`. -/
def singleTagBranch (E : ExtOps) (config_store : ConfigStore) (st : SolveState) :
    Except PyErr (Option CameraPoseObservation) :=
  let fid_size := config_store.remote_config.fiducial_size_m
  match E.solveSquare (square_object_points fid_size) st.frame_points
      config_store.local_config.camera_matrix
      config_store.local_config.distortion_coefficients with
  | none => .ok none
  | some sols =>
    match st.tag_poses[0]? with
    | none => .error .indexError
    | some field_to_tag_pose =>
      match sols[0]?, sols[1]? with
      | some s0, some s1 =>
        let camera_to_tag_pose_0 := opencv_pose_to_wpilib s0.tvec s0.rvec
        let camera_to_tag_pose_1 := opencv_pose_to_wpilib s1.tvec s1.rvec
        let field_to_camera_pose_0 := E.composeFieldToCamera field_to_tag_pose camera_to_tag_pose_0
        let field_to_camera_pose_1 := E.composeFieldToCamera field_to_tag_pose camera_to_tag_pose_1
        .ok (some { tag_ids := st.tag_ids
                    pose_0 := field_to_camera_pose_0
                    error_0 := s0.err
                    pose_1 := some field_to_camera_pose_1
                    error_1 := some s1.err })
      | _, _ => .error .indexError

/-- The `else` (multi-tag) branch of `solve_camera_pose` (lines 146–167):
SQPNP solve on the pooled correspondences inside `try/except`, then
`tvecs[0]`, `rvecs[0]`, `errors[0]` outside any `try`; the second solution
slot is left absent. -/
def multiTagBranch (E : ExtOps) (config_store : ConfigStore) (st : SolveState) :
    Except PyErr (Option CameraPoseObservation) :=
  match E.solveSqpnp st.object_points st.frame_points
      config_store.local_config.camera_matrix
      config_store.local_config.distortion_coefficients with
  | none => .ok none
  | some sols =>
    match sols[0]? with
    | none => .error .indexError
    | some s0 =>
      let camera_to_field_pose := opencv_pose_to_wpilib s0.tvec s0.rvec
      let field_to_camera_pose := E.invertToPose camera_to_field_pose
      .ok (some { tag_ids := st.tag_ids
                  pose_0 := field_to_camera_pose
                  error_0 := s0.err
                  pose_1 := none
                  error_1 := none })

/-- `src/pipeline/CameraPoseEstimator.py`,
`MultiTargetCameraPoseEstimator.solve_camera_pose`.  Faithful to the
source's control flow: the guards at lines 50 and 54 return `None`; then
the `for observation` loop runs the inner layout loop followed by the
single/multi-tag `if/else` — whose arms are indented **inside** the
observation loop and both end in `return` — so the function always returns
while processing the first observation, and later observations are never
reached (hence the `_` for the tail below). -/
def solve_camera_pose (E : ExtOps) (frame_observations : List FiducialFrameObservation)
    (config_store : ConfigStore) : Except PyErr (Option CameraPoseObservation) :=
  match config_store.remote_config.tag_layout with
  | none => .ok none
  | some layout =>
    match frame_observations with
    | [] => .ok none
    | observation :: _ =>
      let fid_size := config_store.remote_config.fiducial_size_m
      let st := (layout.tags.foldl (layoutStep E fid_size observation) ({}, none)).1
      if st.tag_ids.length = 1 then singleTagBranch E config_store st
      else multiTagBranch E config_store st

/-- Whether the configured field layout has an entry for a given tag id. -/
def layoutHasEntry (config_store : ConfigStore) (t : PyInt) : Bool :=
  match config_store.remote_config.tag_layout with
  | none => false
  | some layout => layout.tags.any (fun tag_data => tag_data.ID == t.val)

/-- Whether a camera-pose result carries a populated second solution slot. -/
def second_pose_present : Except PyErr (Option CameraPoseObservation) → Bool
  | .ok (some r) => r.pose_1.isSome
  | _ => false

/-- The inner layout loop leaves the accumulator untouched when no layout
entry matches the observation's tag id. -/
theorem layoutStep_no_match (E : ExtOps) (fid_size : ℚ)
    (observation : FiducialFrameObservation) (tds : List TagLayoutEntry)
    (h : ∀ td ∈ tds, td.ID ≠ observation.tag_id.val) (st : SolveState) :
    tds.foldl (layoutStep E fid_size observation) (st, none) = (st, none) := by
  induction tds generalizing st with
  | nil => rfl
  | cons td rest ih =>
    have hne : td.ID ≠ observation.tag_id.val := h td (by simp)
    have hstep : layoutStep E fid_size observation (st, none) td = (st, none) := by
      simp [layoutStep, hne]
    rw [List.foldl_cons, hstep]
    exact ih (fun x hx => h x (by simp [hx])) st

/-- C6 — `solve_camera_pose` returns absent (`.ok none`, never a stale or
default pose) (a) when zero markers are observed, (b) when the field layout
has no entry for any observed tag id — given that the SQPNP solver call
fails on the then-empty point arrays, modelling OpenCV's raising on empty
input which the source's `except` turns into `None` — and (c) whenever the
underlying solve steps fail numerically (the solver calls raise). -/
theorem solve_camera_pose_absent_cases (E : ExtOps) (config_store : ConfigStore)
    (frame_observations : List FiducialFrameObservation) :
    (solve_camera_pose E [] config_store = .ok none) ∧
    ((∀ o ∈ frame_observations, layoutHasEntry config_store o.tag_id = false) →
      (∀ cm d, E.solveSqpnp [] [] cm d = none) →
      solve_camera_pose E frame_observations config_store = .ok none) ∧
    ((∀ a b cm d, E.solveSquare a b cm d = none) →
      (∀ a b cm d, E.solveSqpnp a b cm d = none) →
      solve_camera_pose E frame_observations config_store = .ok none) := by
  refine ⟨?_, ?_, ?_⟩
  · cases hL : config_store.remote_config.tag_layout <;> simp [solve_camera_pose, hL]
  · intro hno hEmpty
    cases hL : config_store.remote_config.tag_layout with
    | none => simp [solve_camera_pose, hL]
    | some layout =>
      cases frame_observations with
      | nil => simp [solve_camera_pose, hL]
      | cons o rest =>
        have h1 := hno o (by simp)
        rw [layoutHasEntry, hL] at h1
        have hmem : ∀ td ∈ layout.tags, td.ID ≠ o.tag_id.val := by
          intro td htd
          have := List.any_eq_false.mp h1 td htd
          simpa using this
        have hfold := layoutStep_no_match E config_store.remote_config.fiducial_size_m
          o layout.tags hmem {}
        simp [solve_camera_pose, hL, hfold, multiTagBranch, hEmpty]
  · intro hsq hsp
    cases hL : config_store.remote_config.tag_layout with
    | none => simp [solve_camera_pose, hL]
    | some layout =>
      cases frame_observations with
      | nil => simp [solve_camera_pose, hL]
      | cons o rest =>
        simp only [solve_camera_pose, hL]
        split
        · simp [singleTagBranch, hsq]
        · simp [multiTagBranch, hsp]

/-- Identity camera matrix. -/
def idMat3 : Mat3 := ⟨1, 0, 0, 0, 1, 0, 0, 0, 1⟩

/-- A frame observation with a NumPy-integer tag id (the representation
`detect_fiducials` produces) and all corners at the origin. -/
def obsNp (v : ℤ) : FiducialFrameObservation := ⟨.np v, fun _ => (0, 0)⟩

/-- A field-layout entry for tag `i` at the field origin. -/
def entryFor (i : ℤ) : TagLayoutEntry := ⟨i, 0, 0, 0, 1, 0, 0, 0⟩

/-- External collaborators whose solvers always fail (model of numerically
infeasible solves); geometry operations are simple total stand-ins. -/
def E_none : ExtOps :=
  { poseCornerTranslation := fun p _ _ => p.translation
    composeFieldToCamera := fun _ p => p
    invertToPose := fun p => p
    solveSquare := fun _ _ _ _ => none
    solveSqpnp := fun _ _ _ _ => none
    undistortPoints := fun c _ _ => .ok c
    atan := fun q => q
    norm3 := fun t => t.x
    detectMarkers := fun _ => [] }

/-- A configuration with calibration present and a one-entry layout for
tag 1. -/
def cfgBase : ConfigStore := ⟨⟨idMat3, []⟩, ⟨2, some ⟨[entryFor 1]⟩⟩⟩

/-- Witness for C6: the three absent cases evaluated at concrete inputs —
zero observations; a single observation (tag 5) with no layout entry; and a
usable observation (tag 1) with both solvers failing. -/
theorem solve_camera_pose_absent_cases_witness :
    solve_camera_pose E_none [] cfgBase = .ok none ∧
    solve_camera_pose E_none [obsNp 5] cfgBase = .ok none ∧
    solve_camera_pose E_none [obsNp 1] cfgBase = .ok none := by
  refine ⟨(solve_camera_pose_absent_cases E_none cfgBase []).1, ?_, ?_⟩
  · refine (solve_camera_pose_absent_cases E_none cfgBase [obsNp 5]).2.1 ?_ (fun cm d => rfl)
    intro o ho
    rw [List.mem_singleton.mp ho]
    decide
  · exact (solve_camera_pose_absent_cases E_none cfgBase [obsNp 1]).2.2
      (fun a b cm d => rfl) (fun a b cm d => rfl)

/-- External collaborators whose square solver succeeds with the two usual
IPPE solutions (errors 1 and 2) and whose SQPNP solver succeeds with one
solution. -/
def E_solved : ExtOps :=
  { E_none with
    solveSquare := fun _ _ _ _ =>
      some [⟨(0, 0, 0), (1, 2, 3), 1⟩, ⟨(0, 0, 0), (4, 5, 6), 2⟩]
    solveSqpnp := fun _ _ _ _ => some [⟨(0, 0, 0), (1, 2, 3), 1⟩] }

/-- A configuration whose layout holds entries for tags 1 and 2, in that
order. -/
def cfgTwoTags : ConfigStore := ⟨⟨idMat3, []⟩, ⟨2, some ⟨[entryFor 1, entryFor 2]⟩⟩⟩

/-- C1 (failing-input demonstration) — a frame with two observed markers
(tags 2 and 1), both with field-layout entries, for which
`solve_camera_pose` nevertheless returns a **two-solution** result (second
slot populated): the single/multi-tag branch executes inside the
observation loop, so only the first observation (tag 2, which matches the
last layout entry, leaving `len(tag_ids) == 1`) is processed and the
single-tag branch returns both ambiguous poses. -/
theorem solve_camera_pose_two_usable_markers_two_solutions :
    second_pose_present (solve_camera_pose E_solved [obsNp 2, obsNp 1] cfgTwoTags) = true ∧
    layoutHasEntry cfgTwoTags (obsNp 2).tag_id = true ∧
    layoutHasEntry cfgTwoTags (obsNp 1).tag_id = true ∧
    (obsNp 2).tag_id.val ≠ (obsNp 1).tag_id.val := by
  refine ⟨rfl, by decide, by decide, by decide⟩

/-- `src/pipeline/TagAngleCalculator.py`,
`CameraMatrixTagAngleCalculator.calculate_tag_angles`.  No `try/except`
protects this method: a raised `cv.undistortPoints` error, or the
`LinAlgError` from `np.linalg.inv` on a singular camera matrix (computed
inside the corner loop, line 61), propagates to the caller — hence the
`Except` result type.  A failed single-tag solve returns `None` (lines
71–72); otherwise the distance is the translation norm of the lower-error
solution (lines 73–77) and the result carries the four corner angle pairs
`(atan(vec[0]), atan(vec[1]))`. -/
def calculate_tag_angles (E : ExtOps) (frame_observation : FiducialFrameObservation)
    (config_store : ConfigStore) : Except PyErr (Option TagAngleObservation) :=
  match E.undistortPoints frame_observation.corners
      config_store.local_config.camera_matrix
      config_store.local_config.distortion_coefficients with
  | .error e => .error e
  | .ok corners_undistorted =>
    match (List.finRange 4).mapM (fun index =>
        (match npLinalgInv config_store.local_config.camera_matrix with
        | .error e => Except.error e
        | .ok kinv =>
          let vec := kinv.mulVec
            ((corners_undistorted index).1, (corners_undistorted index).2, 1)
          Except.ok (E.atan vec.1, E.atan vec.2.1) : Except PyErr Vec2)) with
    | .error e => .error e
    | .ok corners =>
      match solve_fiducial_pose E frame_observation config_store with
      | none => .ok none
      | some pose_observation =>
        let distance := if pose_observation.error_0 < pose_observation.error_1
          then E.norm3 pose_observation.pose_0.translation
          else E.norm3 pose_observation.pose_1.translation
        .ok (some { tag_id := frame_observation.tag_id
                    corners := corners
                    distance := distance })

/-- C5 — whenever the per-tag angle observer returns a result, the reported
distance is the translation norm of a single-tag solution whose
reprojection error does not exceed the other's (the lower-error branch of
lines 74–77); and when the planar solve returns no result the whole
observation is dropped — no partial angle-only result is ever produced. -/
theorem calculate_tag_angles_distance_lower_error (E : ExtOps)
    (frame_observation : FiducialFrameObservation) (config_store : ConfigStore) :
    (solve_fiducial_pose E frame_observation config_store = none →
      ∀ r, calculate_tag_angles E frame_observation config_store ≠ .ok (some r)) ∧
    (∀ r, calculate_tag_angles E frame_observation config_store = .ok (some r) →
      ∃ po, solve_fiducial_pose E frame_observation config_store = some po ∧
        ((r.distance = E.norm3 po.pose_0.translation ∧ po.error_0 ≤ po.error_1) ∨
         (r.distance = E.norm3 po.pose_1.translation ∧ po.error_1 ≤ po.error_0))) := by
  constructor
  · intro hnone r hr
    rw [calculate_tag_angles] at hr
    split at hr
    · exact Except.noConfusion hr
    · split at hr
      · exact Except.noConfusion hr
      · rw [hnone] at hr
        simp at hr
  · intro r hr
    rw [calculate_tag_angles] at hr
    split at hr
    · exact Except.noConfusion hr
    · split at hr
      · exact Except.noConfusion hr
      · split at hr
        · simp at hr
        · rename_i pose_observation hpo
          refine ⟨pose_observation, hpo, ?_⟩
          simp only [Except.ok.injEq, Option.some.injEq] at hr
          by_cases hlt : pose_observation.error_0 < pose_observation.error_1
          · left
            constructor
            · rw [← hr]
              simp [hlt]
            · exact le_of_lt hlt
          · right
            constructor
            · rw [← hr]
              simp [hlt]
            · exact le_of_not_lt hlt

/-- The concrete angle observation produced by `calculate_tag_angles` on
`E_solved`, `obsNp 7` and `cfgBase`: all corners back-project to `(0, 0)`
and the lower-error solution (error 1, translation `(3, -1, -2)`) has
`norm3` (here the x-component) equal to 3. -/
def angleObs7 : TagAngleObservation :=
  { tag_id := .np 7, corners := [(0, 0), (0, 0), (0, 0), (0, 0)], distance := 3 }

/-- Witness for C5: the theorem applied at the concrete solver `E_solved`
(two solutions with errors 1 < 2), observation `obsNp 7` and configuration
`cfgBase`, where the angle observer returns `angleObs7`. -/
theorem calculate_tag_angles_distance_lower_error_witness :
    ∃ po, solve_fiducial_pose E_solved (obsNp 7) cfgBase = some po ∧
      ((angleObs7.distance = E_solved.norm3 po.pose_0.translation ∧ po.error_0 ≤ po.error_1) ∨
       (angleObs7.distance = E_solved.norm3 po.pose_1.translation ∧ po.error_1 ≤ po.error_0)) := by
  refine (calculate_tag_angles_distance_lower_error E_solved (obsNp 7) cfgBase).2 angleObs7 ?_
  norm_num [calculate_tag_angles, E_solved, E_none, obsNp, cfgBase, idMat3, npLinalgInv,
    Mat3.det, Mat3.inv, Mat3.mulVec, solve_fiducial_pose, square_object_points, cornersList,
    List.mapM, List.mapM.loop, angleObs7, opencv_pose_to_wpilib, List.finRange]
  rfl

/-- `src/AprilTagWorker.py`, `DEMO_ID = 42`: a plain Python `int` literal
(an interned small integer). -/
def DEMO_ID : PyInt := .py 42

/-- The CPython expression `x.tag_id is DEMO_ID` (object **identity**, not
value equality).  `DEMO_ID` is the interned small-int object `42`: a plain
Python `int` of equal value in the interned range `[-5, 256]` is that very
object, while a NumPy integer — the representation
`detect_fiducials` stores in `tag_id` — is a distinct object whatever its
value.  Line 43 of the worker filters with `is not`, the negation of
this. -/
def is_demo_id : PyInt → Bool
  | .py v => v == 42
  | .np _ => false

/-- The value equality `x.tag_id == DEMO_ID` (NumPy and Python `==` compare
numeric values), the test at line 50 of the worker. -/
def eq_demo_id (t : PyInt) : Bool := t.val == DEMO_ID.val

/-- `src/pipeline/FiducialDetector.py`,
`ArucoFiducialDetector.detect_fiducials`: run the external detector; when
nothing is found return `[]`, otherwise build one
`FiducialFrameObservation(id[0], corner)` per detected marker — `id[0]` is
a NumPy integer, hence the `.np` representation.  `config_store` is unused,
as in the source. -/
def detect_fiducials (E : ExtOps) (frame : ℕ) (config_store : ConfigStore) :
    List FiducialFrameObservation :=
  let detected := E.detectMarkers frame
  if detected.length = 0 then []
  else detected.map (fun ic => { tag_id := .np ic.1, corners := ic.2 })

/-- Lines 43 and 47 of `src/AprilTagWorker.py`: the comprehension filter
`if x.tag_id is not DEMO_ID` applied to the frame observations — this list
is the input to the field-relative camera-pose solve and to the per-tag
angle observer. -/
def worker_field_observations (frame_observations : List FiducialFrameObservation) :
    List FiducialFrameObservation :=
  frame_observations.filter (fun x => !(is_demo_id x.tag_id))

/-- Line 50: `[x for x in frame_observations if x.tag_id == DEMO_ID]`. -/
def worker_demo_observations (frame_observations : List FiducialFrameObservation) :
    List FiducialFrameObservation :=
  frame_observations.filter (fun x => eq_demo_id x.tag_id)

/-- An input item of the worker's queue: `(timestamp, frame, config)`. -/
structure Sample where
  timestamp : ℚ
  frame : ℕ
  config : ConfigStore

/-- An output item of the worker's queue: `(timestamp, frame_observations,
camera_pose_observation, tag_angle_observations, demo_pose_observation)`. -/
structure Bundle where
  timestamp : ℚ
  frame_observations : List FiducialFrameObservation
  camera_pose_observation : Option CameraPoseObservation
  tag_angle_observations : List TagAngleObservation
  demo_pose_observation : Option FiducialPoseObservation

/-- One iteration of the `while True` loop of `apriltag_worker`
(`src/AprilTagWorker.py`, lines 35–59), from consuming one input sample to
the bundle handed to `q_out.put`.  The loop body contains no `try/except`,
so an uncaught exception from any solve path surfaces as `.error` (and in
the Python terminates the worker thread). -/
def apriltag_worker_step (E : ExtOps) (sample : Sample) : Except PyErr Bundle :=
  let frame_observations := detect_fiducials E sample.frame sample.config
  match solve_camera_pose E (worker_field_observations frame_observations) sample.config with
  | .error e => .error e
  | .ok camera_pose_observation =>
    match (worker_field_observations frame_observations).mapM
        (fun x => calculate_tag_angles E x sample.config) with
    | .error e => .error e
    | .ok tag_angle_results =>
      let tag_angle_observations := tag_angle_results.filterMap id
      let demo_frame_observations := worker_demo_observations frame_observations
      let demo_pose_observation := match demo_frame_observations with
        | [] => none
        | d :: _ => solve_fiducial_pose E d sample.config
      .ok { timestamp := sample.timestamp
            frame_observations := frame_observations
            camera_pose_observation := camera_pose_observation
            tag_angle_observations := tag_angle_observations
            demo_pose_observation := demo_pose_observation }

/-- A demo-tag observation as the worker actually sees one: tag id 42 in
the NumPy representation `detect_fiducials` produces. -/
def demoObs : FiducialFrameObservation := obsNp 42

/-- C2 (failing-input demonstration) — an observation whose tag id equals
the reserved demo id (42, as the NumPy integer the detector produces) is
routed to the demo solver, yet is **not** excluded from the input to the
field-relative camera-pose solve and the per-tag angle observer: the
filter `x.tag_id is not DEMO_ID` compares object identity, and a NumPy
integer object is never the interned Python `int` object `42`. -/
theorem demo_id_not_excluded_from_field_solve :
    eq_demo_id demoObs.tag_id = true ∧
    worker_field_observations [demoObs] = [demoObs] ∧
    worker_demo_observations [demoObs] = [demoObs] :=
  ⟨rfl, rfl, rfl⟩

/-- External collaborators for the C9 scenario: the detector reports one
marker with (NumPy) tag id 7, `cv.undistortPoints` returns its input
unchanged, and the solvers fail. -/
def E_detect7 : ExtOps := { E_none with detectMarkers := fun _ => [(7, fun _ => (0, 0))] }

/-- A configuration with calibration data present but a singular (all-zero)
camera matrix. -/
def cfgSingular : ConfigStore := ⟨⟨⟨0, 0, 0, 0, 0, 0, 0, 0, 0⟩, []⟩, ⟨2, some ⟨[]⟩⟩⟩

/-- C9 (failing-input demonstration) — with one non-demo marker observed
and a singular camera matrix, the per-tag angle path raises `LinAlgError`
out of the worker's processing step (`np.linalg.inv` at
`TagAngleCalculator.py` line 61 is protected by no `try/except`, nor is
the worker loop), instead of degrading to an absent result: the worker
iteration faults. -/
theorem worker_step_propagates_linalg_error :
    apriltag_worker_step E_detect7 ⟨0, 0, cfgSingular⟩ = .error .linAlgError := by
  norm_num [apriltag_worker_step, detect_fiducials, E_detect7, E_none, worker_field_observations,
    is_demo_id, solve_camera_pose, cfgSingular, multiTagBranch, calculate_tag_angles,
    npLinalgInv, Mat3.det, List.mapM, List.mapM.loop, List.finRange]
  rfl

/-- C10 — every worker iteration that runs to completion emits exactly one
bundle (`apriltag_worker_step` returns one `Bundle`, matching the single
`q_out.put` per loop iteration), and the bundle's timestamp is the consumed
sample's timestamp unchanged, whatever the observation results. -/
theorem worker_step_preserves_timestamp (E : ExtOps) (sample : Sample) (b : Bundle)
    (h : apriltag_worker_step E sample = .ok b) : b.timestamp = sample.timestamp := by
  rw [apriltag_worker_step] at h
  split at h
  · exact Except.noConfusion h
  · split at h
    · exact Except.noConfusion h
    · simp only [Except.ok.injEq] at h
      rw [← h]

/-- Witness for C10: a concrete iteration with no detections still emits a
bundle (empty/absent everywhere) carrying the input timestamp 3. -/
theorem worker_step_preserves_timestamp_witness :
    apriltag_worker_step E_none ⟨3, 0, cfgBase⟩ = .ok ⟨3, [], none, [], none⟩ ∧
    (Bundle.mk 3 [] none [] none).timestamp = (Sample.mk 3 0 cfgBase).timestamp :=
  ⟨rfl, worker_step_preserves_timestamp E_none ⟨3, 0, cfgBase⟩ ⟨3, [], none, [], none⟩ rfl⟩

/-- Python `queue.Queue`: a bound `maxsize` and FIFO contents. -/
structure PyQueue (α : Type) where
  maxsize : ℕ
  items : List α

/-- A `queue.Queue` is full when `maxsize > 0` and it holds that many
items. -/
def PyQueue.full (q : PyQueue α) : Bool :=
  decide (0 < q.maxsize) && decide (q.maxsize ≤ q.items.length)

/-- `try: q.put(item, block=False) except: pass` — the capture loop's
hand-off to the worker (`src/__init__.py`, lines 91–94): never blocks, and
the new item is dropped (never queued) when the slot is occupied. -/
def put_nowait_or_drop (q : PyQueue α) (x : α) : PyQueue α :=
  if q.full then q else ⟨q.maxsize, q.items ++ [x]⟩

/-- `q.get(block=False)` wrapped in `try/except` (lines 95–104): `none`
models the `queue.Empty` path, where the consumer just proceeds. -/
def get_nowait (q : PyQueue α) : Option (α × PyQueue α) :=
  match q.items with
  | [] => none
  | x :: rest => some (x, ⟨q.maxsize, rest⟩)

/-- Outcome of one scheduling step of a **blocking** `put`. -/
inductive PutAttempt (α : Type) where
  | stored (q : PyQueue α)
  | blocked

/-- One scheduling step of the blocking `q_out.put(...)` the worker executes
(`src/AprilTagWorker.py`, lines 57–59 — no `block=False` argument): if the
slot is free the item is appended; if the slot is occupied the call waits
(`blocked`) until the consumer frees it — it never replaces the pending
item. -/
def put_blocking_attempt (q : PyQueue α) (x : α) : PutAttempt α :=
  if q.full then .blocked else .stored ⟨q.maxsize, q.items ++ [x]⟩

/-- `apriltag_worker_in = queue.Queue(maxsize=1)` (`src/__init__.py`,
line 47), initially empty. -/
def apriltag_worker_in : PyQueue Sample := ⟨1, []⟩

/-- `apriltag_worker_out = queue.Queue(maxsize=1)` (line 48), initially
empty. -/
def apriltag_worker_out : PyQueue Bundle := ⟨1, []⟩

/-- A non-blocking dropping hand-off leaves a full queue untouched, however
many items are offered. -/
theorem foldl_put_full (xs : List α) (q : PyQueue α) (hq : q.full = true) :
    xs.foldl put_nowait_or_drop q = q := by
  induction xs generalizing q with
  | nil => rfl
  | cons x rest ih =>
    rw [List.foldl_cons]
    have hstep : put_nowait_or_drop q x = q := by simp [put_nowait_or_drop, hq]
    rw [hstep]
    exact ih q hq

/-- C7 — the input channel never holds more than one pending frame: a burst
of N samples offered through the capture loop's non-blocking hand-off while
the worker consumes nothing leaves exactly the first sample (so at most
one) in the channel — the rest are dropped, never queued — and hence at
most one frame is delivered once the worker unblocks. -/
theorem input_channel_at_most_one_pending (samples : List Sample) :
    (samples.foldl put_nowait_or_drop apriltag_worker_in).items = samples.take 1 ∧
    (samples.foldl put_nowait_or_drop apriltag_worker_in).items.length ≤ 1 := by
  cases samples with
  | nil => exact ⟨rfl, by simp [apriltag_worker_in]⟩
  | cons s rest =>
    rw [List.foldl_cons]
    have h1 : put_nowait_or_drop apriltag_worker_in s = ⟨1, [s]⟩ := rfl
    rw [h1, foldl_put_full rest ⟨1, [s]⟩ rfl]
    exact ⟨by simp, by simp⟩

/-- A bundle with all observation slots empty/absent and timestamp 0. -/
def bundleA : Bundle := ⟨0, [], none, [], none⟩

/-- A bundle with all observation slots empty/absent and timestamp 1. -/
def bundleB : Bundle := ⟨1, [], none, [], none⟩

/-- C8 (counterexample) — with an unconsumed result in the single output
slot, the worker's next emission does **not** overwrite it with the newer
result: the blocking `q_out.put` waits (`blocked`), contradicting the
claimed latest-wins overwrite that never waits. -/
theorem output_put_waits_never_overwrites_cex :
    put_blocking_attempt ⟨1, [bundleA]⟩ bundleB = .blocked ∧
    put_blocking_attempt ⟨1, [bundleA]⟩ bundleB ≠ .stored ⟨1, [bundleB]⟩ := by
  refine ⟨rfl, ?_⟩
  intro h
  rw [show put_blocking_attempt ⟨1, [bundleA]⟩ bundleB = .blocked from rfl] at h
  exact PutAttempt.noConfusion h

/-- C8 (amended) — output-channel behaviour as implemented: the consumer
polls without blocking (an empty slot yields nothing and it proceeds),
while the worker's emission onto an occupied single-slot channel blocks
until the consumer takes the pending result; the pending result is never
overwritten or dropped, and a free slot stores the new result intact. -/
theorem output_channel_blocks_until_consumed (b0 b1 : Bundle) :
    put_blocking_attempt ⟨1, [b0]⟩ b1 = .blocked ∧
    put_blocking_attempt apriltag_worker_out b1 = .stored ⟨1, [b1]⟩ ∧
    get_nowait apriltag_worker_out = none :=
  ⟨rfl, rfl, rfl⟩

/-- C3 — The vision-to-field and field-to-vision coordinate conversions are
mutual inverses and total: converting an OpenCV translation to the WPILib
(field) convention with `(x,y,z)_field = (z,-x,-y)_vision` and back with
`(x,y,z)_vision = (-y,-z,x)_field` is the identity, in both composition
orders, for every translation vector.  Both conversions are total Lean
functions, so they have no failure mode. -/
theorem coordinate_conversions_are_inverses :
    (∀ tvec rvec : Vec3,
      wpilib_translation_to_opencv (opencv_pose_to_wpilib tvec rvec).translation = tvec) ∧
    (∀ t : Translation3d, ∀ rvec : Vec3,
      (opencv_pose_to_wpilib (wpilib_translation_to_opencv t) rvec).translation = t) := by
  constructor
  · rintro ⟨a, b, c⟩ rvec
    simp [opencv_pose_to_wpilib, wpilib_translation_to_opencv]
  · rintro ⟨a, b, c⟩ rvec
    simp [opencv_pose_to_wpilib, wpilib_translation_to_opencv]

end Vision
